import Mathlib

/-!
Shallow embedding of the client slideshow controller of
`src/app/static/js/slideshow.js` (picture-frame repository).

Numbers that JavaScript computes with `/` (image positioning) are modelled
as exact rationals (`ℚ`); array indices and the `%` wrap use `Int` with
JavaScript's truncating remainder (`Int.tmod`).  The browser event loop is
modelled as a list of pending tasks (timers, image preloads, XHR requests);
the environment chooses which pending task fires next and with which
resolution (success payload or failure), matching the single-threaded
callback interleaving of the browser.
-/

namespace Slideshow

/-- Orientation classification (`getOrientation` in slideshow.js):
`'landscape'` when `width >= height`, else `'portrait'`. -/
inductive Orient : Type
  | landscape
  | portrait
deriving DecidableEq, Repr

/-- `getOrientation(width, height)` from slideshow.js. -/
def getOrientation (width height : ℚ) : Orient :=
  if width ≥ height then Orient.landscape else Orient.portrait

/-- The four style values `positionImage` writes to the image element:
`width`, `height`, `top`, `left` (all in px). -/
structure PosOut : Type where
  displayWidth : ℚ
  displayHeight : ℚ
  top : ℚ
  left : ℚ
deriving DecidableEq, Repr

/-- The geometry of `positionImage(imgEl, imgWidth, imgHeight)` from
slideshow.js, as a pure function of the viewport and image dimensions.
The DOM write (`imgEl.style.*`) is modelled separately in the event-loop
embedding below. -/
def positionImage (viewportWidth viewportHeight imgWidth imgHeight : ℚ) : PosOut :=
  let viewportOrientation := getOrientation viewportWidth viewportHeight
  let imgOrientation := getOrientation imgWidth imgHeight
  if viewportOrientation ≠ imgOrientation then
    if viewportOrientation = Orient.landscape ∧ imgOrientation = Orient.portrait then
      -- Landscape device + Portrait photo: Fill height, crop sides
      { displayHeight := viewportHeight
        displayWidth := imgWidth * (viewportHeight / imgHeight)
        top := 0
        left := (viewportWidth - imgWidth * (viewportHeight / imgHeight)) / 2 }
    else
      -- Portrait device + Landscape photo: Fill width, crop top/bottom
      { displayWidth := viewportWidth
        displayHeight := imgHeight * (viewportWidth / imgWidth)
        top := (viewportHeight - imgHeight * (viewportWidth / imgWidth)) / 2
        left := 0 }
  else
    -- Matching orientations - use aspect ratio comparison
    let imgAspect := imgWidth / imgHeight
    let viewportAspect := viewportWidth / viewportHeight
    if imgAspect ≥ viewportAspect then
      { displayHeight := viewportHeight
        displayWidth := imgWidth * (viewportHeight / imgHeight)
        top := 0
        left := (viewportWidth - imgWidth * (viewportHeight / imgHeight)) / 2 }
    else
      { displayWidth := viewportWidth
        displayHeight := imgHeight * (viewportWidth / imgWidth)
        top := (viewportHeight - imgHeight * (viewportWidth / imgWidth)) / 2
        left := 0 }

/-- A photo descriptor from the `/api/photos` response (`{id, name, url}`;
only the fields slideshow.js reads are kept). -/
structure Photo : Type where
  url : String
  name : String
deriving DecidableEq, Repr

/-- A loaded `Image` object: its `src` and natural dimensions. -/
structure Img : Type where
  src : String
  width : ℚ
  height : ℚ
deriving DecidableEq, Repr

/-- The module-level `config` object of slideshow.js. -/
structure Config : Type where
  apiKey : String
  delay : Nat
  fadeDuration : Nat
  displayOrder : String
deriving DecidableEq, Repr

/-- The `/api/config` JSON body; each field may be absent (or falsy), in
which case `loadConfig` substitutes a default via `||`. -/
structure ConfigResp : Type where
  delay : Option Nat
  fadeDuration : Option Nat
  displayOrder : Option String
deriving DecidableEq, Repr

/-- The `/api/photos` JSON body (`data.photos || []`). -/
structure PhotosResp : Type where
  photos : Option (List Photo)
deriving DecidableEq, Repr

/-- JavaScript `v || d` for numeric fields: `undefined` and `0` are falsy. -/
def jsOrNat (v : Option Nat) (d : Nat) : Nat :=
  match v with
  | some n => if n = 0 then d else n
  | none => d

/-- JavaScript `v || d` for string fields: `undefined` and `""` are falsy. -/
def jsOrStr (v : Option String) (d : String) : String :=
  match v with
  | some s => if s = "" then d else s
  | none => d

/-- Upper-case hexadecimal digit. -/
def hexDigit (n : Nat) : Char :=
  if n < 10 then Char.ofNat (48 + n) else Char.ofNat (55 + n)

/-- `%XX` percent-encoding of one byte. -/
def percentEncodeByte (b : Nat) : String :=
  String.singleton (Char.ofNat 37) ++ String.singleton (hexDigit (b / 16))
    ++ String.singleton (hexDigit (b % 16))

/-- Characters `encodeURIComponent` leaves unescaped:
alphanumerics and `- _ . ! ~ * ' ( )`. -/
def uriUnescaped (c : Char) : Bool :=
  c.isAlphanum || c = Char.ofNat 45 || c = Char.ofNat 95 || c = Char.ofNat 46
    || c = Char.ofNat 33 || c = Char.ofNat 126 || c = Char.ofNat 42
    || c = Char.ofNat 39 || c = Char.ofNat 40 || c = Char.ofNat 41

/-- JavaScript `encodeURIComponent`: unescaped characters pass through,
everything else is percent-encoded as UTF-8 bytes. -/
def encodeURIComponent (s : String) : String :=
  String.join (s.toList.map (fun c =>
    if uriUnescaped c then String.singleton c
    else String.join (((String.singleton c).toUTF8.toList.map
      (fun b => percentEncodeByte b.toNat)))))

/-- `buildPhotoUrl(photo, blur)` from slideshow.js. -/
def buildPhotoUrl (conf : Config) (photo : Photo) (blur : Bool) : String :=
  let url := photo.url ++ "?api_key=" ++ encodeURIComponent conf.apiKey
  if blur then url ++ "&blur=true" else url

/-- The module-level `state` object of slideshow.js. -/
structure ClientState : Type where
  photos : List Photo
  currentIndex : Int
  isLoading : Bool
  isFirstLoad : Bool
  isTransitioning : Bool
  currentPhoto : Option Photo
deriving DecidableEq, Repr

/-- The observable DOM state slideshow.js reads and writes: the loading and
error elements' text/display, and the two image elements' `src`, `opacity`,
positioning style and `display`. -/
structure Dom : Type where
  loadingDisplay : String
  loadingText : String
  errorDisplay : String
  errorText : String
  currentImgSrc : Option String
  currentImgOpacity : String
  currentImgStyle : Option PosOut
  currentImgDisplay : String
  backgroundSrc : Option String
  backgroundOpacity : String
  backgroundDisplay : String
deriving DecidableEq, Repr

/-- The per-cycle closure of one `showNextPhoto` invocation: the captured
`photo` and the shared mutable variables `imagesLoaded`, `sharpImg`,
`blurImg` of `checkLoadComplete`. -/
structure Cycle : Type where
  photo : Photo
  imagesLoaded : Nat
  sharpImg : Option Img
  blurImg : Option Img
deriving DecidableEq, Repr

/-- A pending asynchronous callback registered with the browser: an XHR
request, an image preload, or a `setTimeout` body.  Timer constructors
record the duration (ms) they were registered with; preload constructors
record the cycle whose closure they mutate (and the captured `photo` for
the sharp error handler). -/
inductive Task : Type
  | configRequest
  | photosRequest
  | sharpLoad (cid : Nat) (photo : Photo) (url : String)
  | blurLoad (cid : Nat) (url : String)
  | retryTimer (ms : Nat)
  | nextTimer (ms : Nat)
  | errorHideTimer (ms : Nat)
  | fadeSwapTimer (sharpImg : Img) (blurImg : Option Img) (ms : Nat)
  | fadeInTimer (ms : Nat)
deriving DecidableEq, Repr

/-- The environment's resolution when a pending task fires: a timer simply
fires; a preload succeeds with an image or errors; an XHR succeeds with a
parsed body or fails. -/
inductive Res : Type
  | timer
  | imgOk (img : Img)
  | imgErr
  | cfgOk (resp : ConfigResp)
  | cfgErr
  | photosOk (resp : PhotosResp)
  | photosErr (msg : String)
deriving DecidableEq, Repr

/-- Whole-page state: config, client state, DOM, live cycle closures,
next fresh cycle id, pending asynchronous tasks, and the (fixed) viewport. -/
structure World : Type where
  conf : Config
  st : ClientState
  dom : Dom
  cycles : List (Nat × Cycle)
  nextCid : Nat
  pending : List Task
  viewportWidth : ℚ
  viewportHeight : ℚ
deriving DecidableEq, Repr

/-- Look up a cycle closure by id. -/
def getCycle (cs : List (Nat × Cycle)) (cid : Nat) : Option Cycle :=
  match cs with
  | [] => none
  | (k, v) :: rest => if k = cid then some v else getCycle rest cid

/-- Update (or insert) a cycle closure by id. -/
def setCycle (cs : List (Nat × Cycle)) (cid : Nat) (c : Cycle) : List (Nat × Cycle) :=
  match cs with
  | [] => [(cid, c)]
  | (k, v) :: rest => if k = cid then (cid, c) :: rest else (k, v) :: setCycle rest cid c

/-- `showError(message)`: set the error text, show the error element, hide
the loading element, and register the 5000ms auto-hide timer. -/
def showError (w : World) (message : String) : World :=
  { w with
    dom := { w.dom with errorText := message, errorDisplay := "block", loadingDisplay := "none" }
    pending := w.pending ++ [Task.errorHideTimer 5000] }

/-- `displayPhotoWithBlur(sharpImg, blurImg)`: fade the current photo out
and register the swap timer, or (on first display) update both layers at
once and register the 50ms fade-in; in both cases register the
`delay + fadeDuration` next-photo timer. -/
def displayPhotoWithBlur (w : World) (sharpImg : Img) (blurImg : Option Img) : World :=
  let currentOpacity := if w.dom.currentImgOpacity = "" then "0" else w.dom.currentImgOpacity
  let w1 :=
    if currentOpacity ≠ "" ∧ currentOpacity ≠ "0" then
      -- Fade out both layers
      { w with
        dom := { w.dom with currentImgOpacity := "0", backgroundOpacity := "0" }
        pending := w.pending ++ [Task.fadeSwapTimer sharpImg blurImg (w.conf.fadeDuration + 50)] }
    else
      -- First load - always show blur background
      let d1 :=
        match blurImg with
        | some b => { w.dom with backgroundSrc := some b.src, backgroundDisplay := "block",
                                 backgroundOpacity := "1" }
        | none => w.dom
      let pos := positionImage w.viewportWidth w.viewportHeight sharpImg.width sharpImg.height
      { w with
        dom := { d1 with currentImgStyle := some pos, currentImgDisplay := "block",
                         currentImgSrc := some sharpImg.src }
        pending := w.pending ++ [Task.fadeInTimer 50] }
  -- Schedule next photo
  { w1 with pending := w1.pending ++ [Task.nextTimer (w.conf.delay + w.conf.fadeDuration)] }

/-- Body of the `fadeDuration + 50` timer inside `displayPhotoWithBlur`:
update the background (when a blur image exists), reposition and swap the
foreground, and register the 50ms fade-in timer. -/
def fadeSwapBody (w : World) (sharpImg : Img) (blurImg : Option Img) : World :=
  let d1 :=
    match blurImg with
    | some b => { w.dom with backgroundSrc := some b.src, backgroundDisplay := "block",
                             backgroundOpacity := "1" }
    | none => w.dom
  let pos := positionImage w.viewportWidth w.viewportHeight sharpImg.width sharpImg.height
  { w with
    dom := { d1 with currentImgStyle := some pos, currentImgDisplay := "block",
                     currentImgSrc := some sharpImg.src }
    pending := w.pending ++ [Task.fadeInTimer 50] }

/-- `checkLoadComplete()` for cycle `cid`: bump `imagesLoaded`; when it
reaches 2, hide the loading element, clear `isFirstLoad`, and call
`displayPhotoWithBlur` only when BOTH `sharpImg` and `blurImg` are truthy. -/
def checkLoadComplete (w : World) (cid : Nat) : World :=
  match getCycle w.cycles cid with
  | none => w
  | some c =>
    let w2 := { w with cycles := setCycle w.cycles cid { c with imagesLoaded := c.imagesLoaded + 1 } }
    if c.imagesLoaded + 1 = 2 then
      let w3 := { w2 with
        dom := { w2.dom with loadingDisplay := "none" }
        st := { w2.st with isFirstLoad := false } }
      match c.sharpImg, c.blurImg with
      | some s, some b => displayPhotoWithBlur w3 s (some b)
      | _, _ => w3
    else w2

/-- The photo `showNextPhoto` is about to display:
`state.photos[(state.currentIndex + 1) % state.photos.length]`. -/
def nextPhoto (w : World) : Photo :=
  w.st.photos.getD ((w.st.currentIndex + 1).tmod (w.st.photos.length : Int)).toNat
    { url := "", name := "" }

/-- `showNextPhoto()`: guarded by `isTransitioning`; shows "No photos
found" on an empty list; otherwise advances the index, records the new
cycle closure and starts the sharp and blur preloads in parallel. -/
def showNextPhoto (w : World) : World :=
  if w.st.isTransitioning then w
  else if w.st.photos.length = 0 then
    { w with dom := { w.dom with loadingText := "No photos found" } }
  else
    let idx : Int := (w.st.currentIndex + 1).tmod (w.st.photos.length : Int)
    let photo := nextPhoto w
    let photoUrl := buildPhotoUrl w.conf photo false
    let blurUrl := buildPhotoUrl w.conf photo true
    let d1 := if w.st.isFirstLoad then { w.dom with loadingDisplay := "block" } else w.dom
    let d2 := { d1 with errorDisplay := "none" }  -- hideError()
    let cid := w.nextCid
    { w with
      st := { w.st with isTransitioning := true, currentIndex := idx, currentPhoto := some photo }
      dom := d2
      cycles := setCycle w.cycles cid { photo := photo, imagesLoaded := 0, sharpImg := none, blurImg := none }
      nextCid := cid + 1
      pending := w.pending ++ [Task.sharpLoad cid photo photoUrl, Task.blurLoad cid blurUrl] }

/-- Success continuation of `loadConfig`: install the fetched config (with
`||` defaults) and continue with `loadPhotos` (the `/api/photos` request). -/
def onConfigLoaded (w : World) (resp : ConfigResp) : World :=
  let conf := { w.conf with
    delay := jsOrNat resp.delay 10000
    fadeDuration := jsOrNat resp.fadeDuration 1000
    displayOrder := jsOrStr resp.displayOrder "random" }
  { w with conf := conf, pending := w.pending ++ [Task.photosRequest] }

/-- Success continuation of `loadPhotos` with the `init` callback: store
`data.photos || []`; with photos start at index `-1` and call
`showNextPhoto`, otherwise show "No photos found". -/
def onPhotosLoaded (w : World) (resp : PhotosResp) : World :=
  let w1 := { w with st := { w.st with photos := resp.photos.getD [] } }
  if w1.st.photos.length > 0 then
    showNextPhoto { w1 with st := { w1.st with currentIndex := -1 } }
  else
    { w1 with dom := { w1.dom with loadingText := "No photos found" } }

/-- Error handler of the sharp preload (`preloadImage(photoUrl, ...)` with
`err`): show the error and register the 3000ms retry timer. -/
def sharpFail (w : World) (photo : Photo) : World :=
  let w1 := showError w ("Failed to load photo: " ++ photo.name)
  { w1 with pending := w1.pending ++ [Task.retryTimer 3000] }

/-- Success handler of the sharp preload: record `sharpImg` in the cycle's
closure and run `checkLoadComplete`. -/
def sharpOk (w : World) (cid : Nat) (img : Img) : World :=
  match getCycle w.cycles cid with
  | none => w
  | some c =>
      checkLoadComplete
        { w with cycles := setCycle w.cycles cid { c with sharpImg := some img } } cid

/-- Handler of the blur preload (`blurImg = err ? null : img`), then
`checkLoadComplete`. -/
def blurDone (w : World) (cid : Nat) (img : Option Img) : World :=
  match getCycle w.cycles cid with
  | none => w
  | some c =>
      checkLoadComplete
        { w with cycles := setCycle w.cycles cid { c with blurImg := img } } cid

/-- Body of the retry and next-photo timers: clear `isTransitioning` and
call `showNextPhoto`. -/
def advanceTimerBody (w : World) : World :=
  showNextPhoto { w with st := { w.st with isTransitioning := false } }

/-- Execute one fired task with the environment's resolution.  `none` means
the resolution kind does not match the task (no such browser event). -/
def runTask (w : World) (t : Task) (r : Res) : Option World :=
  match t, r with
  | Task.configRequest, Res.cfgErr => some (showError w "Failed to load configuration")
  | Task.configRequest, Res.cfgOk resp => some (onConfigLoaded w resp)
  | Task.photosRequest, Res.photosErr msg =>
      some (showError w ("Failed to load photos: " ++ msg))
  | Task.photosRequest, Res.photosOk resp => some (onPhotosLoaded w resp)
  | Task.sharpLoad _ photo _, Res.imgErr => some (sharpFail w photo)
  | Task.sharpLoad cid _ _, Res.imgOk img => some (sharpOk w cid img)
  | Task.blurLoad cid _, Res.imgOk img => some (blurDone w cid (some img))
  | Task.blurLoad cid _, Res.imgErr => some (blurDone w cid none)
  | Task.retryTimer _, Res.timer => some (advanceTimerBody w)
  | Task.nextTimer _, Res.timer => some (advanceTimerBody w)
  | Task.errorHideTimer _, Res.timer =>
      some { w with dom := { w.dom with errorDisplay := "none" } }
  | Task.fadeSwapTimer s b _, Res.timer => some (fadeSwapBody w s b)
  | Task.fadeInTimer _, Res.timer =>
      some { w with dom := { w.dom with currentImgOpacity := "1" } }
  | _, _ => none

/-- One step of the browser event loop: fire the `i`-th pending task with
resolution `r` (removing it from the pending list first). -/
def step (w : World) (i : Nat) (r : Res) : Option World :=
  match w.pending.get? i with
  | none => none
  | some t => runTask { w with pending := w.pending.eraseIdx i } t r

/-- DOM state as the page's HTML presents it before any script runs. -/
def domInit : Dom :=
  { loadingDisplay := "block", loadingText := "Loading photos..."
    errorDisplay := "none", errorText := ""
    currentImgSrc := none, currentImgOpacity := "", currentImgStyle := none
    currentImgDisplay := "none"
    backgroundSrc := none, backgroundOpacity := "", backgroundDisplay := "none" }

/-- `init()` after the DOM elements and the API key have been found: the
initial module state with the `/api/config` request issued (`loadConfig`). -/
def init (apiKey : String) (vw vh : ℚ) : World :=
  { conf := { apiKey := apiKey, delay := 10000, fadeDuration := 1000, displayOrder := "random" }
    st := { photos := [], currentIndex := 0, isLoading := false, isFirstLoad := true,
            isTransitioning := false, currentPhoto := none }
    dom := domInit
    cycles := []
    nextCid := 0
    pending := [Task.configRequest]
    viewportWidth := vw
    viewportHeight := vh }

/-! ## Claim C5: cross-orientation positioning -/

/-- C5.  For every viewport `(W,H)` and image `(w,h)` whose orientations
differ: a landscape viewport with a portrait image yields
`displayHeight = H`, `displayWidth = w*(H/h)`, `top = 0`,
`left = (W - displayWidth)/2`; a portrait viewport with a landscape image
yields `displayWidth = W`, `displayHeight = h*(W/w)`, `left = 0`,
`top = (H - displayHeight)/2`.  Concretely, viewport 1024x768 with image
600x900 gives `⟨512, 768, 0, 256⟩` and viewport 768x1024 with image
1600x900 gives `⟨768, 432, 296, 0⟩`. -/
theorem spec_c5 :
    (∀ W H w h : ℚ, getOrientation W H = Orient.landscape →
      getOrientation w h = Orient.portrait →
      positionImage W H w h =
        { displayWidth := w * (H / h), displayHeight := H, top := 0,
          left := (W - w * (H / h)) / 2 }) ∧
    (∀ W H w h : ℚ, getOrientation W H = Orient.portrait →
      getOrientation w h = Orient.landscape →
      positionImage W H w h =
        { displayWidth := W, displayHeight := h * (W / w),
          top := (H - h * (W / w)) / 2, left := 0 }) ∧
    positionImage 1024 768 600 900 =
      { displayWidth := 512, displayHeight := 768, top := 0, left := 256 } ∧
    positionImage 768 1024 1600 900 =
      { displayWidth := 768, displayHeight := 432, top := 296, left := 0 } := by
  refine ⟨?_, ?_, ?_, ?_⟩
  · intro W H w h hv hi
    unfold positionImage
    rw [hv, hi]
    simp
  · intro W H w h hv hi
    unfold positionImage
    rw [hv, hi]
    simp
  · norm_num [positionImage, getOrientation]
    simp
  · norm_num [positionImage, getOrientation]
    simp

/-- Witness for C5: both cross-orientation formulas evaluated at the spec's
concrete inputs. -/
theorem spec_c5_witness :
    positionImage 1024 768 600 900 =
      { displayWidth := 600 * ((768 : ℚ) / 900), displayHeight := 768, top := 0,
        left := (1024 - 600 * ((768 : ℚ) / 900)) / 2 } ∧
    positionImage 768 1024 1600 900 =
      { displayWidth := 768, displayHeight := 900 * ((768 : ℚ) / 1600),
        top := (1024 - 900 * ((768 : ℚ) / 1600)) / 2, left := 0 } :=
  ⟨spec_c5.1 1024 768 600 900 (by decide) (by decide),
   spec_c5.2.1 768 1024 1600 900 (by decide) (by decide)⟩

/-! ## Claim C6: matching-orientation positioning -/

/-- C6.  For every viewport `(W,H)` and image `(w,h)` whose orientations
match: if the image aspect `w/h` is at least the viewport aspect `W/H`,
the image fills the viewport height (`displayHeight = H`, `top = 0`,
horizontally centered), else it fills the viewport width
(`displayWidth = W`, `left = 0`, vertically centered). -/
theorem spec_c6 :
    ∀ W H w h : ℚ, getOrientation W H = getOrientation w h →
      (w / h ≥ W / H →
        positionImage W H w h =
          { displayWidth := w * (H / h), displayHeight := H, top := 0,
            left := (W - w * (H / h)) / 2 }) ∧
      (¬ w / h ≥ W / H →
        positionImage W H w h =
          { displayWidth := W, displayHeight := h * (W / w),
            top := (H - h * (W / w)) / 2, left := 0 }) := by
  intro W H w h hmatch
  constructor <;> intro hasp <;> unfold positionImage <;> rw [hmatch] <;> simp [hasp]

/-- Witness for C6: a square viewport with a wider landscape image fills
the height; a 2:1 viewport with a 3:2 landscape image fills the width. -/
theorem spec_c6_witness :
    positionImage 100 100 200 100 =
      { displayWidth := 200 * ((100 : ℚ) / 100), displayHeight := 100, top := 0,
        left := (100 - 200 * ((100 : ℚ) / 100)) / 2 } ∧
    positionImage 200 100 150 100 =
      { displayWidth := 200, displayHeight := 100 * ((200 : ℚ) / 150),
        top := (100 - 100 * ((200 : ℚ) / 150)) / 2, left := 0 } :=
  ⟨(spec_c6 100 100 200 100 (by decide)).1 (by norm_num),
   (spec_c6 200 100 150 100 (by decide)).2 (by norm_num)⟩

/-! ## Claim C10: aspect-ratio preservation and fill/centering invariant -/

/-- C10.  For positive viewport and image dimensions, `positionImage`
preserves the image aspect ratio in every branch, and always exactly fills
one viewport dimension with zero offset on that axis while centering on the
other. -/
theorem spec_c10 (W H w h : ℚ) (hW : 0 < W) (hH : 0 < H) (hw : 0 < w) (hh : 0 < h) :
    (positionImage W H w h).displayWidth / (positionImage W H w h).displayHeight = w / h ∧
    (((positionImage W H w h).displayHeight = H ∧ (positionImage W H w h).top = 0 ∧
        (positionImage W H w h).left = (W - (positionImage W H w h).displayWidth) / 2) ∨
      ((positionImage W H w h).displayWidth = W ∧ (positionImage W H w h).left = 0 ∧
        (positionImage W H w h).top = (H - (positionImage W H w h).displayHeight) / 2)) := by
  unfold positionImage
  dsimp only
  split_ifs with h1 h2 h3
  · refine ⟨?_, Or.inl ⟨rfl, rfl, rfl⟩⟩
    rw [div_eq_div_iff hH.ne' hh.ne']
    field_simp
    try ring
  · refine ⟨?_, Or.inr ⟨rfl, rfl, rfl⟩⟩
    rw [div_eq_div_iff (by positivity) hh.ne']
    field_simp
    try ring
  · refine ⟨?_, Or.inl ⟨rfl, rfl, rfl⟩⟩
    rw [div_eq_div_iff hH.ne' hh.ne']
    field_simp
    try ring
  · refine ⟨?_, Or.inr ⟨rfl, rfl, rfl⟩⟩
    rw [div_eq_div_iff (by positivity) hh.ne']
    field_simp
    try ring

/-- Witness for C10 at viewport 1024x768 with image 600x900. -/
theorem spec_c10_witness :
    (positionImage 1024 768 600 900).displayWidth /
        (positionImage 1024 768 600 900).displayHeight = (600 : ℚ) / 900 ∧
    (((positionImage 1024 768 600 900).displayHeight = 768 ∧
        (positionImage 1024 768 600 900).top = 0 ∧
        (positionImage 1024 768 600 900).left =
          (1024 - (positionImage 1024 768 600 900).displayWidth) / 2) ∨
      ((positionImage 1024 768 600 900).displayWidth = 1024 ∧
        (positionImage 1024 768 600 900).left = 0 ∧
        (positionImage 1024 768 600 900).top =
          (768 - (positionImage 1024 768 600 900).displayHeight) / 2)) :=
  spec_c10 1024 768 600 900 (by norm_num) (by norm_num) (by norm_num) (by norm_num)

/-! ## Concrete fixtures -/

/-- A sample photo descriptor. -/
def photoA : Photo := { url := "/api/photo/abc", name := "sunset" }

/-- A sample loaded sharp image. -/
def imgSharp : Img := { src := "/api/photo/abc?api_key=k", width := 1600, height := 900 }

/-- A sample loaded blur image. -/
def imgBlur : Img := { src := "/api/photo/abc?api_key=k&blur=true", width := 800, height := 450 }

/-- A sample installed configuration. -/
def confK : Config :=
  { apiKey := "k", delay := 10000, fadeDuration := 1000, displayOrder := "random" }

/-- A world with one photo, idle before the first display cycle (the state
right before `init`'s first `showNextPhoto()` call). -/
def wIdle : World :=
  { conf := confK
    st := { photos := [photoA], currentIndex := -1, isLoading := false, isFirstLoad := true,
            isTransitioning := false, currentPhoto := none }
    dom := domInit
    cycles := []
    nextCid := 0
    pending := []
    viewportWidth := 1024
    viewportHeight := 768 }

/-- The first display cycle started from `wIdle`: the sharp and blur
preloads of cycle 0 are pending. -/
def wCycle : World := showNextPhoto wIdle

/-! ## Preservation helper lemmas -/

/-- The `isTransitioning` guard at the top of `showNextPhoto`. -/
theorem showNextPhoto_guard (w : World) (h : w.st.isTransitioning = true) :
    showNextPhoto w = w := by
  simp [showNextPhoto, h]

theorem showError_st (w : World) (m : String) : (showError w m).st = w.st := rfl

theorem sharpFail_st (w : World) (p : Photo) : (sharpFail w p).st = w.st := rfl

theorem onConfigLoaded_st (w : World) (resp : ConfigResp) :
    (onConfigLoaded w resp).st = w.st := rfl

theorem fadeSwapBody_st (w : World) (s : Img) (b : Option Img) :
    (fadeSwapBody w s b).st = w.st := rfl

theorem displayPhotoWithBlur_st (w : World) (s : Img) (b : Option Img) :
    (displayPhotoWithBlur w s b).st = w.st := by
  unfold displayPhotoWithBlur
  dsimp only
  split_ifs <;> rfl

theorem checkLoadComplete_isTransitioning (w : World) (cid : Nat) :
    (checkLoadComplete w cid).st.isTransitioning = w.st.isTransitioning := by
  unfold checkLoadComplete
  cases getCycle w.cycles cid with
  | none => rfl
  | some c =>
    dsimp only
    split_ifs with h
    · cases c.sharpImg <;> cases c.blurImg <;> simp [displayPhotoWithBlur_st]
    · rfl

theorem sharpOk_isTransitioning (w : World) (cid : Nat) (img : Img) :
    (sharpOk w cid img).st.isTransitioning = w.st.isTransitioning := by
  unfold sharpOk
  cases getCycle w.cycles cid with
  | none => rfl
  | some c => exact checkLoadComplete_isTransitioning _ _

theorem blurDone_isTransitioning (w : World) (cid : Nat) (img : Option Img) :
    (blurDone w cid img).st.isTransitioning = w.st.isTransitioning := by
  unfold blurDone
  cases getCycle w.cycles cid with
  | none => rfl
  | some c => exact checkLoadComplete_isTransitioning _ _

theorem showError_T (w : World) (m : String) (h : w.st.isTransitioning = true) :
    (showError w m).st.isTransitioning = true := h

theorem sharpFail_T (w : World) (p : Photo) (h : w.st.isTransitioning = true) :
    (sharpFail w p).st.isTransitioning = true := h

theorem onConfigLoaded_T (w : World) (resp : ConfigResp) (h : w.st.isTransitioning = true) :
    (onConfigLoaded w resp).st.isTransitioning = true := h

theorem fadeSwapBody_T (w : World) (s : Img) (b : Option Img)
    (h : w.st.isTransitioning = true) :
    (fadeSwapBody w s b).st.isTransitioning = true := h

theorem sharpOk_T (w : World) (cid : Nat) (img : Img) (h : w.st.isTransitioning = true) :
    (sharpOk w cid img).st.isTransitioning = true := by
  rw [sharpOk_isTransitioning]
  exact h

theorem blurDone_T (w : World) (cid : Nat) (img : Option Img)
    (h : w.st.isTransitioning = true) :
    (blurDone w cid img).st.isTransitioning = true := by
  rw [blurDone_isTransitioning]
  exact h

theorem showNextPhoto_T (w : World) (h : w.st.isTransitioning = true) :
    (showNextPhoto w).st.isTransitioning = true := by
  rw [showNextPhoto_guard w h]
  exact h

theorem onPhotosLoaded_T (w : World) (resp : PhotosResp) (h : w.st.isTransitioning = true) :
    (onPhotosLoaded w resp).st.isTransitioning = true := by
  unfold onPhotosLoaded
  dsimp only
  split_ifs with hl
  · exact showNextPhoto_T _ h
  · exact h

/-! ## Claim C3: single transition in flight -/

/-- C3.  A `showNextPhoto` call made while `state.isTransitioning` is true
returns immediately without modifying anything, and an event-loop step can
only turn `isTransitioning` from true to false when the fired task is the
next-photo timer or the sharp-preload retry timer. -/
theorem spec_c3 :
    (∀ w : World, w.st.isTransitioning = true → showNextPhoto w = w) ∧
    (∀ (w : World) (i : Nat) (r : Res) (w2 : World), step w i r = some w2 →
      w.st.isTransitioning = true → w2.st.isTransitioning = false →
      (∃ ms, w.pending.get? i = some (Task.nextTimer ms)) ∨
        (∃ ms, w.pending.get? i = some (Task.retryTimer ms))) := by
  constructor
  · exact fun w h => showNextPhoto_guard w h
  · intro w i r w2 hstep hT hF
    unfold step at hstep
    cases hget : w.pending.get? i with
    | none =>
      rw [hget] at hstep
      exact Option.noConfusion hstep
    | some t =>
      rw [hget] at hstep
      have hT2 : ({ w with pending := w.pending.eraseIdx i } : World).st.isTransitioning
          = true := hT
      generalize hw : ({ w with pending := w.pending.eraseIdx i } : World) = w3 at hstep hT2
      cases t <;> cases r <;>
        simp only [runTask, Option.some.injEq, reduceCtorEq] at hstep <;>
        subst hstep <;>
        first
          | exact Or.inl ⟨_, rfl⟩
          | exact Or.inr ⟨_, rfl⟩
          | exact absurd ((showError_T _ _ hT2).symm.trans hF) (by decide)
          | exact absurd ((onConfigLoaded_T _ _ hT2).symm.trans hF) (by decide)
          | exact absurd ((onPhotosLoaded_T _ _ hT2).symm.trans hF) (by decide)
          | exact absurd ((sharpFail_T _ _ hT2).symm.trans hF) (by decide)
          | exact absurd ((sharpOk_T _ _ _ hT2).symm.trans hF) (by decide)
          | exact absurd ((blurDone_T _ _ _ hT2).symm.trans hF) (by decide)
          | exact absurd ((fadeSwapBody_T _ _ _ hT2).symm.trans hF) (by decide)
          | exact absurd (hT2.symm.trans hF) (by decide)

/-- Witness for C3: the guarded call on a concrete in-transition world is a
no-op. -/
theorem spec_c3_witness : showNextPhoto wCycle = wCycle :=
  spec_c3.1 wCycle rfl

/-! ## Claim C7: sharp-preload failure shows an error and retries after 3000ms -/

/-- C7.  When a pending sharp preload fires with an error, the step shows
the error message for that cycle's photo and registers the fixed 3000ms
retry timer (alongside the 5000ms error auto-hide timer); when the retry
timer fires, the step clears `isTransitioning` and calls `showNextPhoto`;
and `showNextPhoto` on an idle world with photos advances the index and
starts a new transition — the loop is not halted. -/
theorem spec_c7 :
    (∀ (w : World) (i cid : Nat) (p : Photo) (u : String),
      w.pending.get? i = some (Task.sharpLoad cid p u) →
      step w i Res.imgErr = some
        { w with
          dom := { w.dom with
            errorText := "Failed to load photo: " ++ p.name
            errorDisplay := "block"
            loadingDisplay := "none" }
          pending := (w.pending.eraseIdx i ++ [Task.errorHideTimer 5000])
            ++ [Task.retryTimer 3000] }) ∧
    (∀ (w : World) (i ms : Nat),
      w.pending.get? i = some (Task.retryTimer ms) →
      step w i Res.timer = some
        (showNextPhoto { w with st := { w.st with isTransitioning := false },
                                pending := w.pending.eraseIdx i })) ∧
    (∀ w : World, w.st.isTransitioning = false → w.st.photos ≠ [] →
      (showNextPhoto w).st.currentIndex
          = (w.st.currentIndex + 1).tmod (w.st.photos.length : Int) ∧
      (showNextPhoto w).st.isTransitioning = true) := by
  refine ⟨?_, ?_, ?_⟩
  · intro w i cid p u hget
    unfold step
    rw [hget]
    rfl
  · intro w i ms hget
    unfold step
    rw [hget]
    rfl
  · intro w hT hne
    have hlen : ¬ w.st.photos.length = 0 := by simpa using hne
    unfold showNextPhoto
    rw [hT]
    rw [if_neg (by simp)]
    rw [if_neg hlen]
    exact ⟨rfl, rfl⟩

/-- Witness for C7: the concrete first cycle whose sharp preload fails,
and the subsequent retry advancing from the idle world. -/
theorem spec_c7_witness :
    step wCycle 0 Res.imgErr = some
      { wCycle with
        dom := { wCycle.dom with
          errorText := "Failed to load photo: " ++ photoA.name
          errorDisplay := "block"
          loadingDisplay := "none" }
        pending := (wCycle.pending.eraseIdx 0 ++ [Task.errorHideTimer 5000])
          ++ [Task.retryTimer 3000] } ∧
    (showNextPhoto wIdle).st.currentIndex
        = (wIdle.st.currentIndex + 1).tmod (wIdle.st.photos.length : Int) ∧
    (showNextPhoto wIdle).st.isTransitioning = true :=
  ⟨spec_c7.1 wCycle 0 0 photoA (buildPhotoUrl confK photoA false) rfl,
   spec_c7.2.2 wIdle rfl (by simp [wIdle])⟩

/-! ## Claim C8: index arithmetic of the display loop -/

/-- C8.  A display cycle that proceeds sets the index to
`(previous + 1) mod n`, which lies in `[0, n)`; starting from the initial
index `-1`, the first cycle displays `photos[0]`. -/
theorem spec_c8 (w : World) (hT : w.st.isTransitioning = false)
    (hne : w.st.photos ≠ []) (hge : -1 ≤ w.st.currentIndex) :
    (showNextPhoto w).st.currentIndex
        = (w.st.currentIndex + 1) % (w.st.photos.length : Int) ∧
    0 ≤ (showNextPhoto w).st.currentIndex ∧
    (showNextPhoto w).st.currentIndex < (w.st.photos.length : Int) ∧
    (w.st.currentIndex = -1 →
      (showNextPhoto w).st.currentIndex = 0 ∧
      (showNextPhoto w).st.currentPhoto = w.st.photos.head?) := by
  have hlen : ¬ w.st.photos.length = 0 := by simpa using hne
  have hpos : (0 : Int) < (w.st.photos.length : Int) := by
    exact_mod_cast Nat.pos_of_ne_zero hlen
  have hnn : (0 : Int) ≤ w.st.currentIndex + 1 := by omega
  have hidx : (showNextPhoto w).st.currentIndex
      = (w.st.currentIndex + 1).tmod (w.st.photos.length : Int) := by
    unfold showNextPhoto
    rw [hT]
    rw [if_neg (by simp)]
    rw [if_neg hlen]
  have hemod : (w.st.currentIndex + 1).tmod (w.st.photos.length : Int)
      = (w.st.currentIndex + 1) % (w.st.photos.length : Int) :=
    Int.tmod_eq_emod hnn hpos.le
  refine ⟨hidx.trans hemod, ?_, ?_, ?_⟩
  · rw [hidx, hemod]
    exact Int.emod_nonneg _ hpos.ne'
  · rw [hidx, hemod]
    exact Int.emod_lt_of_pos _ hpos
  · intro hm1
    have h0 : (showNextPhoto w).st.currentIndex = 0 := by
      rw [hidx, hm1]
      simp
    refine ⟨h0, ?_⟩
    have hph : (showNextPhoto w).st.currentPhoto = some (nextPhoto w) := by
      unfold showNextPhoto
      rw [hT]
      rw [if_neg (by simp)]
      rw [if_neg hlen]
    rw [hph]
    unfold nextPhoto
    rw [hm1]
    simp
    cases hp : w.st.photos with
    | nil => exact absurd hp hne
    | cons a l => simp

/-- Witness for C8: the idle fixture world with index `-1` advances to
index 0 and displays the first photo. -/
theorem spec_c8_witness :
    (showNextPhoto wIdle).st.currentIndex
        = (wIdle.st.currentIndex + 1) % (wIdle.st.photos.length : Int) ∧
    0 ≤ (showNextPhoto wIdle).st.currentIndex ∧
    (showNextPhoto wIdle).st.currentIndex < (wIdle.st.photos.length : Int) ∧
    (wIdle.st.currentIndex = -1 →
      (showNextPhoto wIdle).st.currentIndex = 0 ∧
      (showNextPhoto wIdle).st.currentPhoto = wIdle.st.photos.head?) :=
  spec_c8 wIdle rfl (by simp [wIdle]) (by norm_num [wIdle])

/-! ## Claim C9: empty photo list is handled without error -/

/-- C9.  A photo-list response with zero photos makes the client write
"No photos found" into the loading element without starting a transition,
changing the error banner, or scheduling any further work; and any later
`showNextPhoto` call on an empty list only writes the same text. -/
theorem spec_c9 :
    (∀ (w : World) (i : Nat) (resp : PhotosResp) (w2 : World),
      w.pending.get? i = some Task.photosRequest →
      resp.photos.getD [] = [] →
      step w i (Res.photosOk resp) = some w2 →
      w2.dom.loadingText = "No photos found" ∧
      w2.st.isTransitioning = w.st.isTransitioning ∧
      w2.dom.errorDisplay = w.dom.errorDisplay ∧
      w2.pending = w.pending.eraseIdx i) ∧
    (∀ w : World, w.st.isTransitioning = false → w.st.photos = [] →
      showNextPhoto w = { w with dom := { w.dom with loadingText := "No photos found" } }) := by
  constructor
  · intro w i resp w2 hget hemp hstep
    unfold step at hstep
    rw [hget] at hstep
    simp only [runTask, Option.some.injEq] at hstep
    subst hstep
    unfold onPhotosLoaded
    rw [hemp]
    simp
  · intro w hT hemp
    unfold showNextPhoto
    rw [hT]
    rw [if_neg (by simp)]
    rw [if_pos (by rw [hemp]; rfl)]

/-- Fixture: the idle world with an empty photo list, waiting for the
`/api/photos` response. -/
def wEmptyReq : World :=
  { wIdle with st := { wIdle.st with photos := [] }, pending := [Task.photosRequest] }

/-- Fixture: `wEmptyReq` after the photos request resolved with zero
photos. -/
def wEmptyDone : World :=
  (step wEmptyReq 0 (Res.photosOk { photos := some [] })).getD wEmptyReq

/-- Fixture: an idle world whose photo list is empty. -/
def wEmptyIdle : World := { wIdle with st := { wIdle.st with photos := [] } }

/-- Witness for C9: an empty `/api/photos` response at initialization, and
a direct `showNextPhoto` call on an empty-list world. -/
theorem spec_c9_witness :
    (step wEmptyReq 0 (Res.photosOk { photos := some [] }) = some wEmptyDone ∧
      wEmptyDone.dom.loadingText = "No photos found" ∧
      wEmptyDone.st.isTransitioning = wEmptyReq.st.isTransitioning ∧
      wEmptyDone.dom.errorDisplay = wEmptyReq.dom.errorDisplay ∧
      wEmptyDone.pending = wEmptyReq.pending.eraseIdx 0) ∧
    showNextPhoto wEmptyIdle
      = { wEmptyIdle with dom := { wEmptyIdle.dom with loadingText := "No photos found" } } :=
  ⟨⟨rfl, spec_c9.1 wEmptyReq 0 { photos := some [] } wEmptyDone rfl rfl rfl⟩,
   spec_c9.2 wEmptyIdle rfl rfl⟩

/-! ## Claim C2: behaviour on config-fetch failure -/

/-- Fixture: `init` with API key "k" on a 1024x768 viewport. -/
def wInit : World := init "k" 1024 768

/-- Fixture: `wInit` after the `/api/config` request failed. -/
def wInitCfgErr : World := (step wInit 0 Res.cfgErr).getD wInit

/-- Fixture: `wInitCfgErr` after the 5000ms error auto-hide timer fired. -/
def wInitHidden : World := (step wInitCfgErr 0 Res.timer).getD wInit

/-- C2 counterexample: when the initial config fetch fails, the error
banner is shown with only the 5000ms auto-hide timer pending — no photos
request is issued, and after the timer fires the pending queue is empty
with no photos loaded and no photo displayed, so the remainder of
initialization does NOT proceed. -/
theorem spec_c2_counterexample :
    step wInit 0 Res.cfgErr = some wInitCfgErr ∧
    wInitCfgErr.dom.errorText = "Failed to load configuration" ∧
    wInitCfgErr.dom.errorDisplay = "block" ∧
    wInitCfgErr.pending = [Task.errorHideTimer 5000] ∧
    wInitCfgErr.st.photos = [] ∧
    step wInitCfgErr 0 Res.timer = some wInitHidden ∧
    wInitHidden.pending = [] ∧
    wInitHidden.st.photos = [] ∧
    wInitHidden.st.currentPhoto = none :=
  ⟨rfl, rfl, rfl, rfl, rfl, rfl, rfl, rfl, rfl⟩

/-- C2 (amended).  When the initial config fetch fails, the controller
shows a transient error that auto-dismisses after 5 seconds, but
initialization halts: the failing step schedules only the 5000ms
auto-hide timer (the photo list is never requested and the slideshow does
not start), and firing that timer only hides the error banner. -/
theorem spec_c2_amended :
    (∀ (w : World) (i : Nat),
      w.pending.get? i = some Task.configRequest →
      step w i Res.cfgErr = some
        { w with
          dom := { w.dom with
            errorText := "Failed to load configuration"
            errorDisplay := "block"
            loadingDisplay := "none" }
          pending := w.pending.eraseIdx i ++ [Task.errorHideTimer 5000] }) ∧
    (∀ (w : World) (i ms : Nat),
      w.pending.get? i = some (Task.errorHideTimer ms) →
      step w i Res.timer = some
        { w with
          dom := { w.dom with errorDisplay := "none" }
          pending := w.pending.eraseIdx i }) := by
  constructor
  · intro w i hget
    unfold step
    rw [hget]
    rfl
  · intro w i ms hget
    unfold step
    rw [hget]
    rfl

/-- Witness for amended C2: the concrete initial world. -/
theorem spec_c2_witness :
    step wInit 0 Res.cfgErr = some
      { wInit with
        dom := { wInit.dom with
          errorText := "Failed to load configuration"
          errorDisplay := "block"
          loadingDisplay := "none" }
        pending := wInit.pending.eraseIdx 0 ++ [Task.errorHideTimer 5000] } :=
  spec_c2_amended.1 wInit 0 rfl

/-! ## Claim C4: preload join/barrier before DOM mutation -/

/-- Fixture: `wCycle` after its sharp preload succeeded (blur pending). -/
def wSharpOk : World := (step wCycle 0 (Res.imgOk imgSharp)).getD wCycle

/-- Fixture: `wCycle` after its sharp preload failed (blur pending). -/
def wSharpErr : World := (step wCycle 0 Res.imgErr).getD wCycle

/-- Lookup after update in the cycle-closure association list. -/
theorem getCycle_setCycle (cs : List (Nat × Cycle)) (cid : Nat) (c : Cycle) :
    getCycle (setCycle cs cid c) cid = some c := by
  induction cs with
  | nil => simp [setCycle, getCycle]
  | cons kv rest ih =>
    obtain ⟨k, v⟩ := kv
    by_cases h : k = cid
    · simp [setCycle, getCycle, h]
    · simp [setCycle, getCycle, h, ih]

/-- C4 counterexample: a first-load cycle whose sharp preload fails while
the blur preload is still pending hides the loading indicator — a DOM
mutation listed by the claim — before the blur outcome is known. -/
theorem spec_c4_counterexample :
    wCycle.dom.loadingDisplay = "block" ∧
    wCycle.pending.get? 0
        = some (Task.sharpLoad 0 photoA (buildPhotoUrl confK photoA false)) ∧
    wCycle.pending.get? 1 = some (Task.blurLoad 0 (buildPhotoUrl confK photoA true)) ∧
    step wCycle 0 Res.imgErr = some wSharpErr ∧
    wSharpErr.dom.loadingDisplay = "none" ∧
    wSharpErr.pending.get? 0 = some (Task.blurLoad 0 (buildPhotoUrl confK photoA true)) :=
  ⟨rfl, rfl, rfl, rfl, rfl, rfl⟩

/-- C4 (amended).  The two preloads of a cycle are started in parallel by
`showNextPhoto`, and as long as neither outcome has been recorded
(`imagesLoaded = 0`), resolving only the sharp preload successfully, or
only the blur preload (either way), performs no DOM mutation at all; the
display update and fade happen only at the join.  Exception forced by the
code: a sharp-preload failure immediately shows the error and hides the
loading indicator even while the blur outcome is still unknown. -/
theorem spec_c4_amended :
    (∀ w : World, w.st.isTransitioning = false → w.st.photos ≠ [] →
      (showNextPhoto w).pending = w.pending ++
        [Task.sharpLoad w.nextCid (nextPhoto w) (buildPhotoUrl w.conf (nextPhoto w) false),
         Task.blurLoad w.nextCid (buildPhotoUrl w.conf (nextPhoto w) true)]) ∧
    (∀ (w : World) (i cid : Nat) (p : Photo) (u : String) (img : Img) (c : Cycle) (w2 : World),
      w.pending.get? i = some (Task.sharpLoad cid p u) →
      getCycle w.cycles cid = some c → c.imagesLoaded = 0 →
      step w i (Res.imgOk img) = some w2 → w2.dom = w.dom) ∧
    (∀ (w : World) (i cid : Nat) (u : String) (img : Img) (c : Cycle) (w2 : World),
      w.pending.get? i = some (Task.blurLoad cid u) →
      getCycle w.cycles cid = some c → c.imagesLoaded = 0 →
      step w i (Res.imgOk img) = some w2 → w2.dom = w.dom) ∧
    (∀ (w : World) (i cid : Nat) (u : String) (c : Cycle) (w2 : World),
      w.pending.get? i = some (Task.blurLoad cid u) →
      getCycle w.cycles cid = some c → c.imagesLoaded = 0 →
      step w i Res.imgErr = some w2 → w2.dom = w.dom) ∧
    (∀ (w : World) (i cid : Nat) (p : Photo) (u : String),
      w.pending.get? i = some (Task.sharpLoad cid p u) →
      step w i Res.imgErr = some
        { w with
          dom := { w.dom with
            errorText := "Failed to load photo: " ++ p.name
            errorDisplay := "block"
            loadingDisplay := "none" }
          pending := (w.pending.eraseIdx i ++ [Task.errorHideTimer 5000])
            ++ [Task.retryTimer 3000] }) := by
  refine ⟨?_, ?_, ?_, ?_, ?_⟩
  · intro w hT hne
    have hlen : ¬ w.st.photos.length = 0 := by simpa using hne
    unfold showNextPhoto
    rw [hT]
    rw [if_neg (by simp)]
    rw [if_neg hlen]
  · intro w i cid p u img c w2 hget hc h0 hstep
    unfold step at hstep
    rw [hget] at hstep
    simp only [runTask, Option.some.injEq] at hstep
    subst hstep
    unfold sharpOk
    dsimp only
    rw [hc]
    dsimp only
    unfold checkLoadComplete
    dsimp only
    rw [getCycle_setCycle]
    dsimp only
    rw [if_neg (by simp [h0])]
  · intro w i cid u img c w2 hget hc h0 hstep
    unfold step at hstep
    rw [hget] at hstep
    simp only [runTask, Option.some.injEq] at hstep
    subst hstep
    unfold blurDone
    dsimp only
    rw [hc]
    dsimp only
    unfold checkLoadComplete
    dsimp only
    rw [getCycle_setCycle]
    dsimp only
    rw [if_neg (by simp [h0])]
  · intro w i cid u c w2 hget hc h0 hstep
    unfold step at hstep
    rw [hget] at hstep
    simp only [runTask, Option.some.injEq] at hstep
    subst hstep
    unfold blurDone
    dsimp only
    rw [hc]
    dsimp only
    unfold checkLoadComplete
    dsimp only
    rw [getCycle_setCycle]
    dsimp only
    rw [if_neg (by simp [h0])]
  · intro w i cid p u hget
    unfold step
    rw [hget]
    rfl

/-- Witness for amended C4: the concrete first cycle — parallel preload
start from `wIdle`, and a sharp success before the blur outcome leaves the
DOM untouched. -/
theorem spec_c4_witness :
    (showNextPhoto wIdle).pending = wIdle.pending ++
      [Task.sharpLoad wIdle.nextCid (nextPhoto wIdle)
         (buildPhotoUrl wIdle.conf (nextPhoto wIdle) false),
       Task.blurLoad wIdle.nextCid (buildPhotoUrl wIdle.conf (nextPhoto wIdle) true)] ∧
    wSharpOk.dom = wCycle.dom :=
  ⟨spec_c4_amended.1 wIdle rfl (by simp [wIdle]),
   spec_c4_amended.2.1 wCycle 0 0 photoA (buildPhotoUrl confK photoA false) imgSharp
     { photo := photoA, imagesLoaded := 0, sharpImg := none, blurImg := none }
     wSharpOk rfl rfl rfl rfl⟩

/-! ## Claim C1: blur-preload failure is NOT tolerated (code bug) -/

/-- Fixture: `wSharpOk` after its blur preload failed: the slideshow is
stuck. -/
def wStuck : World := (step wSharpOk 0 Res.imgErr).getD wCycle

/-- C1 (code bug).  Evaluating the code on a cycle whose sharp preload
succeeds and whose blur preload fails: `checkLoadComplete` reaches
`imagesLoaded = 2` but its `sharpImg && blurImg` test is false, so
`displayPhotoWithBlur` never runs — no display update happens, no
next-photo timer is scheduled, `isTransitioning` stays true and the
pending queue is empty, so every further event-loop step is impossible:
the slideshow halts instead of proceeding without a background layer. -/
theorem spec_c1_code_bug :
    step wCycle 0 (Res.imgOk imgSharp) = some wSharpOk ∧
    step wSharpOk 0 Res.imgErr = some wStuck ∧
    wStuck.st.isTransitioning = true ∧
    wStuck.pending = [] ∧
    wStuck.dom.currentImgSrc = none ∧
    wStuck.dom.loadingDisplay = "none" ∧
    (∀ (i : Nat) (r : Res), step wStuck i r = none) := by
  refine ⟨rfl, rfl, rfl, rfl, rfl, rfl, ?_⟩
  intro i r
  unfold step
  have hp : wStuck.pending = [] := rfl
  rw [hp]
  simp

end Slideshow
